import Mathlib

/-!
Verification of the SRG CU/ITNP reader core: a shallow embedding of the
binary decoders (src/cu.py, src/itnp.py), the targeting validator, and
the text renderer, with theorems settling the specification claims.

Byte buffers are lists of naturals (each entry one byte, reduced mod
256).  struct.unpack fields are translated exactly: 'q' is a
little-endian signed 64-bit integer, 'h' a little-endian signed 16-bit
integer, 'd' a little-endian IEEE-754 binary64 value.
-/

namespace SrgReader

/-- A byte buffer: each entry is one byte (values are reduced mod 256). -/
abbrev Bytes := List Nat

/-- Little-endian interpretation of a byte list as an unsigned integer. -/
def leNat : Bytes → Nat
  | [] => 0
  | b :: bs => b % 256 + 256 * leNat bs

/-- Reinterpret an unsigned value as a two's-complement signed integer of
bit width w. -/
def toSigned (w : Nat) (n : Nat) : Int :=
  let m := n % 2 ^ w
  if m < 2 ^ (w - 1) then (m : Int) else (m : Int) - 2 ^ w

/-- struct format 'h': one little-endian signed 16-bit integer. -/
def int16LE (bs : Bytes) : Int := toSigned 16 (leNat bs)

/-- struct format 'q': one little-endian signed 64-bit integer. -/
def int64LE (bs : Bytes) : Int := toSigned 64 (leNat bs)

/-- An IEEE-754 binary64 value, as produced by struct format 'd'.
Finite values are represented by their exact rational value (the two
IEEE zeros collapse to the single rational 0, which matches IEEE
comparison and equality semantics, the only operations the program
performs on floats besides formatting). -/
inductive F64 where
  | nan : F64
  | inf : Bool → F64
  | fin : ℚ → F64
deriving DecidableEq

/-- Decode 8 bytes as a little-endian IEEE-754 binary64 value
(struct format 'd'): sign bit 63, 11 exponent bits, 52 mantissa bits. -/
def decodeF64 (bs : Bytes) : F64 :=
  let bits : Nat := leNat bs
  let s : Nat := bits / 2 ^ 63 % 2
  let e : Nat := bits / 2 ^ 52 % 2 ^ 11
  let m : Nat := bits % 2 ^ 52
  let sgn : ℚ := if s = 1 then -1 else 1
  if e = 2047 then
    if m = 0 then F64.inf (s = 1) else F64.nan
  else if e = 0 then
    F64.fin (sgn * (m : ℚ) / 2 ^ 1074)
  else if e ≤ 1074 then
    F64.fin (sgn * ((2 ^ 52 + m : ℚ)) / 2 ^ (1075 - e))
  else
    F64.fin (sgn * ((2 ^ 52 + m : ℚ)) * 2 ^ (e - 1075))

/-- IEEE < on binary64 values (Python float comparison): any comparison
with NaN is false. -/
def F64.blt : F64 → F64 → Bool
  | .nan, _ => false
  | _, .nan => false
  | .inf true, .inf true => false
  | .inf true, _ => true
  | .inf false, _ => false
  | .fin _, .inf b => !b
  | .fin a, .fin b => decide (a < b)

/-- IEEE > on binary64 values. -/
def F64.bgt (x y : F64) : Bool := F64.blt y x

/-- IEEE <= on binary64 values: any comparison with NaN is false. -/
def F64.ble : F64 → F64 → Bool
  | .nan, _ => false
  | _, .nan => false
  | .inf true, _ => true
  | .inf false, .inf false => true
  | .inf false, _ => false
  | .fin _, .inf b => !b
  | .fin a, .fin b => decide (a ≤ b)

/-- IEEE == on binary64 values: NaN is not equal to anything. -/
def F64.beq : F64 → F64 → Bool
  | .nan, _ => false
  | _, .nan => false
  | .inf a, .inf b => a == b
  | .inf _, .fin _ => false
  | .fin _, .inf _ => false
  | .fin a, .fin b => a == b

/-- Decode failure kinds of the readers: struct.error on a short header
read (truncated header), the record-length assertion failure (truncated
record), the timestamp-window-length assertion failure (malformed
timestamp), and a ValueError raised by datetime construction on an
invalid calendar date (invalid date). -/
inductive Err where
  | truncatedHeader : Err
  | truncatedRecord : Err
  | malformedTimestamp : Err
  | invalidDate : Err
deriving DecidableEq

/-- A Python datetime value (naive, microsecond precision). -/
structure DT where
  year : Int
  month : Int
  day : Int
  hour : Int
  minute : Int
  second : Int
  microsecond : Int
deriving DecidableEq

/-- Gregorian leap-year rule, as used by Python's datetime. -/
def isLeapYear (y : Int) : Bool := y % 4 == 0 && (y % 100 != 0 || y % 400 == 0)

/-- Days in a month, as used by Python's datetime. -/
def daysInMonth (y m : Int) : Int :=
  if m = 2 then (if isLeapYear y then 29 else 28)
  else if m = 4 ∨ m = 6 ∨ m = 9 ∨ m = 11 then 30
  else 31

/-- Python datetime construction: every field is range-checked, and a
ValueError (modelled as none) is raised when one is out of range. -/
def mkDatetime (y mo d h mi s us : Int) : Option DT :=
  if 1 ≤ y ∧ y ≤ 9999 ∧ 1 ≤ mo ∧ mo ≤ 12 ∧ 1 ≤ d ∧ d ≤ daysInMonth y mo
      ∧ 0 ≤ h ∧ h ≤ 23 ∧ 0 ≤ mi ∧ mi ≤ 59 ∧ 0 ≤ s ∧ s ≤ 59
      ∧ 0 ≤ us ∧ us ≤ 999999
  then some ⟨y, mo, d, h, mi, s, us⟩ else none

/-- SrgCuFile._systemtime and SrgItnpFile._systemtime (identical code):
assert the window is 16 bytes, unpack eight little-endian int16 fields
(struct format 'hhhhhhhh'), and build
datetime(dt0, dt1, dt3, dt4, dt5, dt6, dt7 // 1000); the weekday field
dt2 is discarded.  Python // is floor division, Int.fdiv. -/
def systemtime (buf : Bytes) : Except Err DT :=
  if buf.length ≠ 16 then .error .malformedTimestamp
  else
    let dt := fun i => int16LE ((buf.drop (2 * i)).take 2)
    match mkDatetime (dt 0) (dt 1) (dt 3) (dt 4) (dt 5) (dt 6)
        (Int.fdiv (dt 7) 1000) with
    | some t => .ok t
    | none => .error .invalidDate

/-- SrgCuFile.Record: one targeting record.  Field names follow the
source dataclass. -/
structure CuRecord where
  time : DT
  az : F64
  el : F64
  req_span : F64
  req_dis : F64
  req_vel : F64
  req_acc : F64
  req_nd1i : Int
  req_nd2i : Int
  req_n2i : Int
  req_n3i : Int
  res_del : F64
  res_dis : F64
  res_vel : F64
  res_acc : F64
  res_n2rj : Int
  res_n3rj : Int
deriving DecidableEq

/-- The fixed targeting record length asserted by SrgCuFile._record. -/
def cuRecordLen : Nat := 144

/-- SrgCuFile._record: assert 144 bytes, decode bytes 0-15 as a
timestamp, and unpack the remaining 128 bytes with struct format
'ddddddqqqqddddqq' (positions 0-5 float64, 6-9 int64, 10-13 float64,
14-15 int64, each field 8 bytes wide at offset 8*i of the payload). -/
def cuRecord (buf : Bytes) : Except Err CuRecord :=
  if buf.length ≠ cuRecordLen then .error .truncatedRecord
  else match systemtime (buf.take 16) with
    | .error e => .error e
    | .ok t =>
      let payload := buf.drop 16
      let d := fun i => decodeF64 ((payload.drop (8 * i)).take 8)
      let q := fun i => int64LE ((payload.drop (8 * i)).take 8)
      .ok ⟨t, d 0, d 1, d 2, d 3, d 4, d 5, q 6, q 7, q 8, q 9,
           d 10, d 11, d 12, d 13, q 14, q 15⟩

/-- The targeting document: header fields (each None until assigned,
modelled as Option) plus the record tuple. -/
structure CuDoc where
  nip : Option Int
  spacecraft : Option Int
  seans : Option Int
  begin : Option DT
  end_ : Option DT
  ns : Option Int
  ng1 : Option Int
  records : List CuRecord
deriving DecidableEq

/-- SrgCuFile.__init__ with no path: every header field None, no
records. -/
def initCuDoc : CuDoc :=
  ⟨none, none, none, none, none, none, none, []⟩

/-- struct.unpack('q', file.read(8)): file.read returns at most 8 bytes,
and unpack raises struct.error (truncated header) unless it got exactly
8. -/
def unpackQ (s : Bytes) : Except Err (Int × Bytes) :=
  if 8 ≤ s.length then .ok (int64LE (s.take 8), s.drop 8)
  else .error .truncatedHeader

/-- self._systemtime(file.read(16)): file.read returns at most 16 bytes
and _systemtime asserts the exact length. -/
def readTimestamp (s : Bytes) : Except Err (DT × Bytes) :=
  match systemtime (s.take 16) with
  | .ok t => .ok (t, s.drop 16)
  | .error e => .error e

/-- The header phase of SrgCuFile.read, line by line: three int64
fields, 8 reserved bytes, two timestamps, two int64 fields, 16 reserved
bytes.  Returns the document as populated so far, the remaining input,
and the error if one was raised. -/
def cuReadHeader (input : Bytes) : CuDoc × Bytes × Option Err :=
  let d0 := initCuDoc
  match unpackQ input with
  | .error e => (d0, [], some e)
  | .ok (nip, s) =>
    let d1 := { d0 with nip := some nip }
    match unpackQ s with
    | .error e => (d1, [], some e)
    | .ok (sc, s) =>
      let d2 := { d1 with spacecraft := some sc }
      match unpackQ s with
      | .error e => (d2, [], some e)
      | .ok (seans, s) =>
        let d3 := { d2 with seans := some seans }
        let s := s.drop 8
        match readTimestamp s with
        | .error e => (d3, [], some e)
        | .ok (b, s) =>
          let d4 := { d3 with begin := some b }
          match readTimestamp s with
          | .error e => (d4, [], some e)
          | .ok (en, s) =>
            let d5 := { d4 with end_ := some en }
            match unpackQ s with
            | .error e => (d5, [], some e)
            | .ok (ns, s) =>
              let d6 := { d5 with ns := some ns }
              match unpackQ s with
              | .error e => (d6, [], some e)
              | .ok (ng1, s) =>
                let d7 := { d6 with ng1 := some ng1 }
                (d7, s.drop 16, none)

/-- The record loop of SrgCuFile.read:
for chunk in iter(lambda: file.read(144), b''): decode each chunk. -/
def cuRecordsLoop (s : Bytes) : Except Err (List CuRecord) :=
  if h : s.isEmpty then .ok []
  else match cuRecord (s.take 144) with
    | .error e => .error e
    | .ok r =>
      match cuRecordsLoop (s.drop 144) with
      | .error e => .error e
      | .ok rs => .ok (r :: rs)
termination_by s.length
decreasing_by
  simp only [List.length_drop]
  cases s with
  | nil => simp [List.isEmpty] at h
  | cons a t => simp; omega

/-- The try-block of SrgCuFile.read: header then record loop.  On an
error in the loop, self.records has not yet been assigned, so the
partial document keeps its initial empty record tuple. -/
def cuReadAttempt (input : Bytes) : CuDoc × Option Err :=
  match cuReadHeader input with
  | (d, _, some e) => (d, some e)
  | (d, rest, none) =>
    match cuRecordsLoop rest with
    | .error e => (d, some e)
    | .ok rs => ({ d with records := rs }, none)

/-- SrgCuFile.read: on any exception the except-branch calls
self.__init__() (resetting every field) and re-raises; the pair is the
final object state and the propagated error. -/
def cuRead (input : Bytes) : CuDoc × Option Err :=
  match cuReadAttempt input with
  | (d, none) => (d, none)
  | (_, some e) => (initCuDoc, some e)

/-- SrgCuFile.empty: true iff every header field is None and there are
no records, checked in source order. -/
def cuEmpty (d : CuDoc) : Bool :=
  if d.nip ≠ none then false
  else if d.spacecraft ≠ none then false
  else if d.seans ≠ none then false
  else if d.begin ≠ none then false
  else if d.end_ ≠ none then false
  else if d.ns ≠ none then false
  else if d.ng1 ≠ none then false
  else if d.records.length > 0 then false
  else true

/-- A validation failure message.  The source builds strings with
f-strings; header messages are fixed strings, record messages carry the
rule label, the offending value, and the 1-based record number
(f-string '{n} {v} (запись {i+1})'), modelled structurally. -/
inductive VErr where
  | header : String → VErr
  | recF : String → F64 → Nat → VErr
  | recI : String → Int → Nat → VErr
deriving DecidableEq

/-- The per-record rules of SrgCuFile.valid, in source order, for the
record at 0-based index i; the reported number is i+1.  The checks for
req_n2i and res_n2rj are commented out (TODO) in the source. -/
def cuRecordCheck (r : CuRecord) (i : Nat) : Option VErr :=
  if r.az.blt (F64.fin 0) || r.az.bgt (F64.fin 360) then
    some (.recF "Азимут" r.az (i + 1))
  else if r.el.blt (F64.fin 0) || r.el.bgt (F64.fin 90) then
    some (.recF "Угол места" r.el (i + 1))
  else if r.req_span.ble (F64.fin 0) then
    some (.recF "Время распространения сигнала до КА (запрос)" r.req_span (i + 1))
  else if r.req_dis.ble (F64.fin 0) then
    some (.recF "Дальность (запрос)" r.req_dis (i + 1))
  else if r.req_vel.beq (F64.fin 0) then
    some (.recF "Скорость (запрос)" r.req_vel (i + 1))
  else if r.req_acc.ble (F64.fin 0) then
    some (.recF "Ускорение (запрос)" r.req_acc (i + 1))
  else if r.req_nd1i < -2 ^ 15 ∨ r.req_nd1i > 2 ^ 15 - 1 then
    some (.recI "Код смещения частоты ПН 1.2 МГц (Nd1i) (запрос)" r.req_nd1i (i + 1))
  else if r.req_nd2i < -2 ^ 15 ∨ r.req_nd2i > 2 ^ 15 - 1 then
    some (.recI "Код перестройки частоты ПН 1.2 МГц (Nd2i) (запрос)" r.req_nd2i (i + 1))
  else if r.req_n3i < -2 ^ 17 ∨ r.req_n3i > 2 ^ 17 - 1 then
    some (.recI "Код перестройки частоты несущей запросного сигнала (N3i) (запрос)" r.req_n3i (i + 1))
  else if r.res_del.ble (F64.fin 0) then
    some (.recF "Полная задержка распространения сигнала (ответ)" r.res_del (i + 1))
  else if r.res_dis.ble (F64.fin 0) then
    some (.recF "Дальность (ответ)" r.res_dis (i + 1))
  else if r.res_vel.beq (F64.fin 0) then
    some (.recF "Скорость (ответ)" r.res_vel (i + 1))
  else if r.res_acc.ble (F64.fin 0) then
    some (.recF "Ускорение (ответ)" r.res_acc (i + 1))
  else if r.res_n3rj < -2 ^ 17 ∨ r.res_n3rj > 2 ^ 17 - 1 then
    some (.recI "Код перестройки частоты НЕС (N3rj) (ответ)" r.res_n3rj (i + 1))
  else none

/-- The enumerate loop of SrgCuFile.valid: first violation in index
order. -/
def cuRecordsCheck : List CuRecord → Nat → Option VErr
  | [], _ => none
  | r :: rs, i =>
    match cuRecordCheck r i with
    | some e => some e
    | none => cuRecordsCheck rs (i + 1)

/-- SrgCuFile.valid: uninitialized check, then each header field in
source order, then the record count, then the per-record loop; the
first failing check produces the whole verdict. -/
def cuValid (d : CuDoc) : Bool × Option VErr :=
  if cuEmpty d then (false, some (.header "Объект не инициализирован"))
  else if d.nip = none then (false, some (.header "Нет номера пункта"))
  else if d.spacecraft = none then (false, some (.header "Нет номера аппарата"))
  else if d.seans = none then (false, some (.header "Нет номера сеанса"))
  else if d.begin = none then (false, some (.header "Нет даты начала"))
  else if d.end_ = none then (false, some (.header "Нет даты окончания"))
  else if d.ns = none then
    (false, some (.header "Нет литеры частоты запросного сигнала (Ns)"))
  else if d.ng1 = none then
    (false, some (.header "Нет литеры частоты гетеродина конвертора (Ng1)"))
  else if d.records.length = 0 then (false, some (.header "Нет записей ЦУ"))
  else
    match cuRecordsCheck d.records 0 with
    | some e => (false, some e)
    | none => (true, none)

/-- Python format '{:w}' on a string: left-justify, pad with spaces, no
truncation. -/
def padRight (s : String) (w : Nat) : String :=
  s ++ String.mk (List.replicate (w - s.length) ' ')

/-- Python right-justification (the default for numeric formats):
pad with spaces on the left, no truncation. -/
def padLeftSp (s : String) (w : Nat) : String :=
  String.mk (List.replicate (w - s.length) ' ') ++ s

/-- Zero-pad a natural's decimal representation on the left to width w
(Python %0wd for non-negative values). -/
def zeroPadNat (n : Nat) (w : Nat) : String :=
  String.mk (List.replicate (w - (toString n).length) '0') ++ toString n

/-- Python f-string '{v}' on an Optional[int] header field: str(None) is
"None", str(int) the decimal representation. -/
def optIntStr : Option Int → String
  | none => "None"
  | some n => toString n

/-- Python format '{:-wd}' on an int: sign only when negative,
right-justified to width w with spaces. -/
def intFmt (n : Int) (w : Nat) : String := padLeftSp (toString n) w

/-- Round-half-even of a rational to an integer (the rounding Python
uses when formatting the exact value of a binary float to a fixed
number of decimals). -/
def roundHalfEven (q : ℚ) : Int :=
  let f := ⌊q⌋
  let r := q - f
  if r < 1 / 2 then f
  else if 1 / 2 < r then f + 1
  else if f % 2 = 0 then f else f + 1

/-- Fixed-point decimal rendering of a rational with p decimal places. -/
def fixedDecimal (q : ℚ) (p : Nat) : String :=
  let n := roundHalfEven (q * 10 ^ p)
  let sgn := if n < 0 then "-" else ""
  let a := n.natAbs
  if p = 0 then sgn ++ toString (a / 10 ^ p)
  else sgn ++ toString (a / 10 ^ p) ++ "." ++ zeroPadNat (a % 10 ^ p) p

/-- Python format '{:w.pf}' on a float: fixed-point with p decimals,
right-justified to width w ('nan'/'inf' for the non-finite values). -/
def f64Fmt (x : F64) (w p : Nat) : String :=
  match x with
  | .nan => padLeftSp "nan" w
  | .inf b => padLeftSp (if b then "-inf" else "inf") w
  | .fin q => padLeftSp (fixedDecimal q p) w

/-- strftime('%Y-%m-%d %H:%M:%S'): zero-padded calendar rendering. -/
def strfTime (t : DT) : String :=
  zeroPadNat t.year.natAbs 4 ++ "-" ++ zeroPadNat t.month.natAbs 2 ++ "-"
    ++ zeroPadNat t.day.natAbs 2 ++ " " ++ zeroPadNat t.hour.natAbs 2 ++ ":"
    ++ zeroPadNat t.minute.natAbs 2 ++ ":" ++ zeroPadNat t.second.natAbs 2

/-- The seven header lines of SrgCuFile.write_txt_with, without their
trailing newlines, in write order; b and e are the begin and end
timestamps (the source calls .strftime on them, so they must be set). -/
def cuHeaderLines (d : CuDoc) (b e : DT) : List String :=
  ["NIP   " ++ optIntStr d.nip,
   "SC    " ++ optIntStr d.spacecraft,
   "Seans " ++ optIntStr d.seans,
   "Begin " ++ strfTime b,
   "End   " ++ strfTime e,
   "Ns    " ++ optIntStr d.ns,
   "Ng1   " ++ optIntStr d.ng1]

/-- The fixed column-header row of SrgCuFile.write_txt_with
('{:5} {:19} ...'.format('№', 'time', ...)). -/
def cuColHeader : String :=
  padRight "№" 5 ++ " " ++ padRight "time" 19 ++ " " ++ padRight "az" 7
    ++ " " ++ padRight "el" 6 ++ " " ++ padRight "t_sc" 5 ++ " "
    ++ padRight "r" 17 ++ " " ++ padRight "v" 11 ++ " " ++ padRight "a" 8
    ++ " " ++ padRight "Nd1i" 6 ++ " " ++ padRight "Nd2i" 6 ++ " "
    ++ padRight "N2i" 7 ++ " " ++ padRight "N3i" 7 ++ " "
    ++ padRight "t_del" 5 ++ " " ++ padRight "r" 17 ++ " "
    ++ padRight "v" 11 ++ " " ++ padRight "a" 8 ++ " "
    ++ padRight "N2rj" 7 ++ " " ++ padRight "N3rj" 7

/-- The field part of one data row of SrgCuFile.write_txt_with: the
writes after the leading '{i+1:<5d} ' index write, each field with its
source width and precision, without the trailing newline. -/
def cuDataLineTail (r : CuRecord) : String :=
  strfTime r.time ++ " "
    ++ f64Fmt r.az 7 3 ++ " " ++ f64Fmt r.el 6 3 ++ " "
    ++ f64Fmt r.req_span 5 3 ++ " " ++ f64Fmt r.req_dis 17 6 ++ " "
    ++ f64Fmt r.req_vel 11 6 ++ " " ++ f64Fmt r.req_acc 8 6 ++ " "
    ++ intFmt r.req_nd1i 6 ++ " " ++ intFmt r.req_nd2i 6 ++ " "
    ++ intFmt r.req_n2i 7 ++ " " ++ intFmt r.req_n3i 7 ++ " "
    ++ f64Fmt r.res_del 5 3 ++ " " ++ f64Fmt r.res_dis 17 6 ++ " "
    ++ f64Fmt r.res_vel 11 6 ++ " " ++ f64Fmt r.res_acc 8 6 ++ " "
    ++ intFmt r.res_n2rj 7 ++ " " ++ intFmt r.res_n3rj 7

/-- One data row of SrgCuFile.write_txt_with for the record at 0-based
index i, without the trailing newline: the leading '{i+1:<5d} ' index
write followed by the field writes. -/
def cuDataLine (i : Nat) (r : CuRecord) : String :=
  padRight (toString (i + 1)) 5 ++ " " ++ cuDataLineTail r

/-- The record loop of SrgCuFile.write_txt_with: each iteration writes
one data row ending in a newline. -/
def cuDataText : Nat → List CuRecord → String
  | _, [] => ""
  | i, r :: rs => cuDataLine i r ++ "\n" ++ cuDataText (i + 1) rs

/-- SrgCuFile.write_str via write_txt_with: the full rendered text.  If
begin or end is None, .strftime raises AttributeError and no string is
produced (none). -/
def cuWriteStr (d : CuDoc) : Option String :=
  match d.begin, d.end_ with
  | some b, some e =>
    some ("NIP   " ++ optIntStr d.nip ++ "\n"
      ++ "SC    " ++ optIntStr d.spacecraft ++ "\n"
      ++ "Seans " ++ optIntStr d.seans ++ "\n"
      ++ "Begin " ++ strfTime b ++ "\n"
      ++ "End   " ++ strfTime e ++ "\n"
      ++ "Ns    " ++ optIntStr d.ns ++ "\n"
      ++ "Ng1   " ++ optIntStr d.ng1 ++ "\n"
      ++ "\n"
      ++ cuColHeader ++ "\n"
      ++ cuDataText 0 d.records)
  | _, _ => none

/-- SrgItnpFile.Record: one measurement record.  The dataclass declares
ddst:bool, dvel:bool, tmp:float, but Python does not enforce
annotations, and the decoder (see itnpRecord) actually stores the
temperature float in ddst, flag bit 0 in dvel and flag bit 1 in tmp;
the fields here carry the types of the values the decoder stores. -/
structure ItnpRecord where
  time : DT
  di : Int
  nd1i : Int
  nd2i : Int
  nsk : Int
  dn2ri : Int
  n3ri : Int
  of3 : Int
  pf3 : Int
  rat : F64
  pol : Int
  ddst : F64
  dvel : Int
  tmp : Int
  prs : F64
  hmd : F64
deriving DecidableEq

/-- The fixed measurement record length asserted by
SrgItnpFile._record. -/
def itnpRecordLen : Nat := 136

/-- SrgItnpFile._record: assert 136 bytes; bytes 0-15 are the
timestamp; buffer[16:-46] (bytes 16-89) unpacks with struct format
'qqqqqqqqdh' (eight int64, one float64 at payload offset 64, one int16
at payload offset 72); byte 90 (offset length-46) is the flag byte with
ddst = bit 0 and dvel = bit 1; buffer[-24:] (bytes 112-135) unpacks as
three float64 values tmp, prs, hmd.  The constructor call
Record(t, *data, tmp, ddst, dvel, prs, hmd) fills the dataclass fields
positionally, so after the ten unpacked values the arguments tmp, ddst,
dvel land in the fields named ddst, dvel, tmp, in that order. -/
def itnpRecord (buf : Bytes) : Except Err ItnpRecord :=
  if buf.length ≠ itnpRecordLen then .error .truncatedRecord
  else match systemtime (buf.take 16) with
    | .error e => .error e
    | .ok t =>
      let mid := (buf.drop 16).take 74
      let q := fun i => int64LE ((mid.drop (8 * i)).take 8)
      let rat := decodeF64 ((mid.drop 64).take 8)
      let pol := int16LE ((mid.drop 72).take 2)
      let dost := buf.getD 90 0 % 256
      let ddst : Int := ((dost >>> 0) &&& 1 : Nat)
      let dvel : Int := ((dost >>> 1) &&& 1 : Nat)
      let tail := buf.drop 112
      let tmp := decodeF64 (tail.take 8)
      let prs := decodeF64 ((tail.drop 8).take 8)
      let hmd := decodeF64 ((tail.drop 16).take 8)
      .ok ⟨t, q 0, q 1, q 2, q 3, q 4, q 5, q 6, q 7, rat, pol,
           tmp, ddst, dvel, prs, hmd⟩

/-- The measurement document: header fields plus the record tuple. -/
structure ItnpDoc where
  nip : Option Int
  spacecraft : Option Int
  seans : Option Int
  begin : Option DT
  end_ : Option DT
  ns : Option Int
  ng1 : Option Int
  delay : Option Int
  records : List ItnpRecord
deriving DecidableEq

/-- SrgItnpFile.__init__ with no path: every header field None, no
records. -/
def initItnpDoc : ItnpDoc :=
  ⟨none, none, none, none, none, none, none, none, []⟩

/-- The header phase of SrgItnpFile.read: three int64 fields, 8
reserved bytes, two timestamps, two int64 fields, 8 reserved bytes, one
int64 delay field. -/
def itnpReadHeader (input : Bytes) : ItnpDoc × Bytes × Option Err :=
  let d0 := initItnpDoc
  match unpackQ input with
  | .error e => (d0, [], some e)
  | .ok (nip, s) =>
    let d1 := { d0 with nip := some nip }
    match unpackQ s with
    | .error e => (d1, [], some e)
    | .ok (sc, s) =>
      let d2 := { d1 with spacecraft := some sc }
      match unpackQ s with
      | .error e => (d2, [], some e)
      | .ok (seans, s) =>
        let d3 := { d2 with seans := some seans }
        let s := s.drop 8
        match readTimestamp s with
        | .error e => (d3, [], some e)
        | .ok (b, s) =>
          let d4 := { d3 with begin := some b }
          match readTimestamp s with
          | .error e => (d4, [], some e)
          | .ok (en, s) =>
            let d5 := { d4 with end_ := some en }
            match unpackQ s with
            | .error e => (d5, [], some e)
            | .ok (ns, s) =>
              let d6 := { d5 with ns := some ns }
              match unpackQ s with
              | .error e => (d6, [], some e)
              | .ok (ng1, s) =>
                let d7 := { d6 with ng1 := some ng1 }
                let s := s.drop 8
                match unpackQ s with
                | .error e => (d7, [], some e)
                | .ok (delay, s) =>
                  ({ d7 with delay := some delay }, s, none)

/-- The record loop of SrgItnpFile.read: 136-byte chunks until the
input is exhausted. -/
def itnpRecordsLoop (s : Bytes) : Except Err (List ItnpRecord) :=
  if h : s.isEmpty then .ok []
  else match itnpRecord (s.take 136) with
    | .error e => .error e
    | .ok r =>
      match itnpRecordsLoop (s.drop 136) with
      | .error e => .error e
      | .ok rs => .ok (r :: rs)
termination_by s.length
decreasing_by
  simp only [List.length_drop]
  cases s with
  | nil => simp [List.isEmpty] at h
  | cons a t => simp; omega

/-- The try-block of SrgItnpFile.read. -/
def itnpReadAttempt (input : Bytes) : ItnpDoc × Option Err :=
  match itnpReadHeader input with
  | (d, _, some e) => (d, some e)
  | (d, rest, none) =>
    match itnpRecordsLoop rest with
    | .error e => (d, some e)
    | .ok rs => ({ d with records := rs }, none)

/-- SrgItnpFile.read: on any exception the except-branch calls
self.__init__() and re-raises. -/
def itnpRead (input : Bytes) : ItnpDoc × Option Err :=
  match itnpReadAttempt input with
  | (d, none) => (d, none)
  | (_, some e) => (initItnpDoc, some e)

instance {ε α : Type} [DecidableEq ε] [DecidableEq α] : DecidableEq (Except ε α) :=
  fun a b =>
    match a, b with
    | .ok x, .ok y =>
      if h : x = y then .isTrue (by rw [h])
      else .isFalse (by intro hh; cases hh; exact h rfl)
    | .error x, .error y =>
      if h : x = y then .isTrue (by rw [h])
      else .isFalse (by intro hh; cases hh; exact h rfl)
    | .ok _, .error _ => .isFalse (by intro hh; cases hh)
    | .error _, .ok _ => .isFalse (by intro hh; cases hh)

/-- A valid concrete timestamp window: 2022-01-01 00:00:00.000. -/
def ts16 : Bytes := [230, 7, 1, 0, 0, 0, 1, 0, 0, 0, 0, 0, 0, 0, 0, 0]

/-- The datetime decoded from ts16. -/
def dt0 : DT := ⟨2022, 1, 1, 0, 0, 0, 0⟩

/-- C2: the claim says the timestamp codec preserves the stored
millisecond value at millisecond precision.  The code computes
datetime(..., dt7 // 1000), i.e. it floor-divides the millisecond field
by 1000 and stores the quotient in the microsecond slot, so a buffer
whose millisecond field holds 500 decodes to a datetime with
sub-second value 0 instead of 500 ms: evaluating the codec on the
fields (2022, 9, 6, 3, 21, 0, 34, 500) yields microsecond 0. -/
theorem C2_millisecond_not_preserved :
    systemtime [230, 7, 9, 0, 6, 0, 3, 0, 21, 0, 0, 0, 34, 0, 244, 1]
      = Except.ok ⟨2022, 9, 3, 21, 0, 34, 0⟩
    ∧ (244 + 256 * 1 : Nat) = 500 := by
  constructor
  · decide
  · rfl

/-- C5: a failed decode never exposes a partially-populated document:
whatever the input, if the targeting or measurement reader reports an
error, the resulting object state is the freshly re-initialised
document (every header field unset, zero records), which the
targeting empty() predicate accepts. -/
theorem C5_all_or_nothing :
    (∀ input : Bytes, ((cuRead input).2).isSome = true →
      (cuRead input).1 = initCuDoc ∧ cuEmpty (cuRead input).1 = true)
    ∧ (∀ input : Bytes, ((itnpRead input).2).isSome = true →
      (itnpRead input).1 = initItnpDoc) := by
  constructor
  · intro input h
    rcases hc : cuReadAttempt input with ⟨d, _ | e⟩
    · simp [cuRead, hc] at h
    · simp only [cuRead, hc]
      exact ⟨trivial, by decide⟩
  · intro input h
    rcases hc : itnpReadAttempt input with ⟨d, _ | e⟩
    · simp [itnpRead, hc] at h
    · simp only [itnpRead, hc]

/-- Witness for C5 at the concrete input []: the empty input fails
(truncated header) in both readers, and the resulting documents are
the empty initial ones. -/
theorem C5_all_or_nothing_witness :
    (((cuRead ([] : Bytes)).2).isSome = true
      ∧ ((itnpRead ([] : Bytes)).2).isSome = true)
    ∧ ((cuRead ([] : Bytes)).1 = initCuDoc
        ∧ cuEmpty (cuRead ([] : Bytes)).1 = true)
    ∧ (itnpRead ([] : Bytes)).1 = initItnpDoc :=
  ⟨⟨by decide, by decide⟩,
   C5_all_or_nothing.1 [] (by decide),
   C5_all_or_nothing.2 [] (by decide)⟩

/-- True iff every header field of a targeting document is set. -/
def cuHeaderSet (d : CuDoc) : Bool :=
  d.nip.isSome && d.spacecraft.isSome && d.seans.isSome && d.begin.isSome
    && d.end_.isSome && d.ns.isSome && d.ng1.isSome

/-- C6: the targeting validator returns the first violation only, in
the order: uninitialized check, header fields in fixed order, then
records in index order.  In particular the fresh empty document (and
any document empty() accepts) fails with the uninitialized reason; a
non-empty document with nip unset fails with the nip reason no matter
what its records contain; and when every header field is set, a
violation in the first record is the whole verdict, regardless of the
remaining records. -/
theorem C6_first_violation_order :
    cuValid initCuDoc = (false, some (.header "Объект не инициализирован"))
    ∧ (∀ d : CuDoc, cuEmpty d = true →
        cuValid d = (false, some (.header "Объект не инициализирован")))
    ∧ (∀ d : CuDoc, cuEmpty d = false → d.nip = none →
        cuValid d = (false, some (.header "Нет номера пункта")))
    ∧ (∀ (d : CuDoc) (r : CuRecord) (rs : List CuRecord) (e : VErr),
        cuHeaderSet d = true → d.records = r :: rs →
        cuRecordCheck r 0 = some e → cuValid d = (false, some e)) := by
  refine ⟨by decide, ?_, ?_, ?_⟩
  · intro d h
    simp [cuValid, h]
  · intro d h h2
    simp [cuValid, h, h2]
  · intro d r rs e hset hrec hcheck
    simp only [cuHeaderSet, Bool.and_eq_true, Option.isSome_iff_ne_none] at hset
    obtain ⟨⟨⟨⟨⟨⟨h1, h2⟩, h3⟩, h4⟩, h5⟩, h6⟩, h7⟩ := hset
    have hemp : cuEmpty d = false := by simp [cuEmpty, h1]
    simp [cuValid, hemp, h1, h2, h3, h4, h5, h6, h7, hrec,
      cuRecordsCheck, hcheck]

/-- A targeting record that passes every validator rule. -/
def goodRec : CuRecord :=
  ⟨dt0, F64.fin 0, F64.fin 0, F64.fin 1, F64.fin 1, F64.fin 1, F64.fin 1,
   0, 0, 0, 0, F64.fin 1, F64.fin 1, F64.fin 1, F64.fin 1, 0, 0⟩

/-- A targeting document whose headers are all set and whose single
record violates the azimuth rule. -/
def docBadAz : CuDoc :=
  ⟨some 1, some 720, some 1, some dt0, some dt0, some 1, some 1,
   [{ goodRec with az := F64.fin 500 }]⟩

/-- Witness for C6 at concrete inputs: a document with nip unset but
spacecraft set fails with the nip reason, and a fully-headed document
whose first record has azimuth 500 fails with the azimuth reason for
record 1. -/
theorem C6_first_violation_order_witness :
    (cuEmpty { initCuDoc with spacecraft := some 720 } = false
      ∧ ({ initCuDoc with spacecraft := some 720 } : CuDoc).nip = none
      ∧ cuHeaderSet docBadAz = true
      ∧ docBadAz.records = [{ goodRec with az := F64.fin 500 }]
      ∧ cuRecordCheck { goodRec with az := F64.fin 500 } 0
          = some (.recF "Азимут" (F64.fin 500) 1))
    ∧ cuValid { initCuDoc with spacecraft := some 720 }
        = (false, some (.header "Нет номера пункта"))
    ∧ cuValid docBadAz = (false, some (.recF "Азимут" (F64.fin 500) 1)) :=
  ⟨⟨by decide, by decide, by decide, by decide, by decide⟩,
   C6_first_violation_order.2.2.1 _ (by decide) (by decide),
   C6_first_violation_order.2.2.2 docBadAz { goodRec with az := F64.fin 500 }
     [] (.recF "Азимут" (F64.fin 500) 1) (by decide) (by decide) (by decide)⟩

/-- C7: the targeting validator's bounds are inclusive at their
endpoints.  Relative to a record passing every rule: azimuth 0 and 360
pass while 360.0001 and -0.0001 fail with the azimuth reason at the
record's 1-based index; elevation 0 and 90 pass while 90.0001 and
-0.0001 fail; nd1i and nd2i pass at -32768 and 32767 and fail just
outside; n3i and n3rj pass at -131072 and 131071 and fail just
outside. -/
theorem C7_inclusive_bounds : ∀ i : Nat,
    cuRecordCheck { goodRec with az := F64.fin 0 } i = none
    ∧ cuRecordCheck { goodRec with az := F64.fin 360 } i = none
    ∧ cuRecordCheck { goodRec with az := F64.fin (3600001 / 10000) } i
        = some (.recF "Азимут" (F64.fin (3600001 / 10000)) (i + 1))
    ∧ cuRecordCheck { goodRec with az := F64.fin (-1 / 10000) } i
        = some (.recF "Азимут" (F64.fin (-1 / 10000)) (i + 1))
    ∧ cuRecordCheck { goodRec with el := F64.fin 0 } i = none
    ∧ cuRecordCheck { goodRec with el := F64.fin 90 } i = none
    ∧ cuRecordCheck { goodRec with el := F64.fin (900001 / 10000) } i
        = some (.recF "Угол места" (F64.fin (900001 / 10000)) (i + 1))
    ∧ cuRecordCheck { goodRec with el := F64.fin (-1 / 10000) } i
        = some (.recF "Угол места" (F64.fin (-1 / 10000)) (i + 1))
    ∧ cuRecordCheck { goodRec with req_nd1i := 32767 } i = none
    ∧ cuRecordCheck { goodRec with req_nd1i := 32768 } i
        = some (.recI "Код смещения частоты ПН 1.2 МГц (Nd1i) (запрос)" 32768 (i + 1))
    ∧ cuRecordCheck { goodRec with req_nd1i := -32768 } i = none
    ∧ cuRecordCheck { goodRec with req_nd1i := -32769 } i
        = some (.recI "Код смещения частоты ПН 1.2 МГц (Nd1i) (запрос)" (-32769) (i + 1))
    ∧ cuRecordCheck { goodRec with req_nd2i := 32767 } i = none
    ∧ cuRecordCheck { goodRec with req_nd2i := 32768 } i
        = some (.recI "Код перестройки частоты ПН 1.2 МГц (Nd2i) (запрос)" 32768 (i + 1))
    ∧ cuRecordCheck { goodRec with req_nd2i := -32768 } i = none
    ∧ cuRecordCheck { goodRec with req_nd2i := -32769 } i
        = some (.recI "Код перестройки частоты ПН 1.2 МГц (Nd2i) (запрос)" (-32769) (i + 1))
    ∧ cuRecordCheck { goodRec with req_n3i := 131071 } i = none
    ∧ cuRecordCheck { goodRec with req_n3i := 131072 } i
        = some (.recI "Код перестройки частоты несущей запросного сигнала (N3i) (запрос)" 131072 (i + 1))
    ∧ cuRecordCheck { goodRec with req_n3i := -131072 } i = none
    ∧ cuRecordCheck { goodRec with req_n3i := -131073 } i
        = some (.recI "Код перестройки частоты несущей запросного сигнала (N3i) (запрос)" (-131073) (i + 1))
    ∧ cuRecordCheck { goodRec with res_n3rj := 131071 } i = none
    ∧ cuRecordCheck { goodRec with res_n3rj := 131072 } i
        = some (.recI "Код перестройки частоты НЕС (N3rj) (ответ)" 131072 (i + 1))
    ∧ cuRecordCheck { goodRec with res_n3rj := -131072 } i = none
    ∧ cuRecordCheck { goodRec with res_n3rj := -131073 } i
        = some (.recI "Код перестройки частоты НЕС (N3rj) (ответ)" (-131073) (i + 1)) := by
  intro i
  repeat' apply And.intro
  all_goals
    simp only [cuRecordCheck, goodRec, F64.blt, F64.bgt, F64.ble, F64.beq]
  all_goals norm_num

/-- Witness for C7 at the concrete index 0: azimuth 360 passes and
azimuth 360.0001 fails for record 1. -/
theorem C7_inclusive_bounds_witness :
    cuRecordCheck { goodRec with az := F64.fin 360 } 0 = none
    ∧ cuRecordCheck { goodRec with az := F64.fin (3600001 / 10000) } 0
        = some (.recF "Азимут" (F64.fin (3600001 / 10000)) 1) :=
  ⟨(C7_inclusive_bounds 0).2.1, (C7_inclusive_bounds 0).2.2.1⟩

/-- Two targeting records that agree on every field except possibly
req_n2i and res_n2rj. -/
def recAgreeExceptN2 (r r' : CuRecord) : Prop :=
  r.time = r'.time ∧ r.az = r'.az ∧ r.el = r'.el ∧ r.req_span = r'.req_span
    ∧ r.req_dis = r'.req_dis ∧ r.req_vel = r'.req_vel
    ∧ r.req_acc = r'.req_acc ∧ r.req_nd1i = r'.req_nd1i
    ∧ r.req_nd2i = r'.req_nd2i ∧ r.req_n3i = r'.req_n3i
    ∧ r.res_del = r'.res_del ∧ r.res_dis = r'.res_dis
    ∧ r.res_vel = r'.res_vel ∧ r.res_acc = r'.res_acc
    ∧ r.res_n3rj = r'.res_n3rj

theorem cuRecordCheck_congrN2 (r r' : CuRecord) (h : recAgreeExceptN2 r r')
    (i : Nat) : cuRecordCheck r i = cuRecordCheck r' i := by
  obtain ⟨c1, c2, c3, c4, c5, c6, c7, c8, c9, c10, c11, c12, c13, c14, c15⟩ := h
  cases r
  cases r'
  simp_all only
  rfl

theorem cuRecordsCheck_congrN2 (rs rs' : List CuRecord)
    (h : List.Forall₂ recAgreeExceptN2 rs rs') (i : Nat) :
    cuRecordsCheck rs i = cuRecordsCheck rs' i := by
  induction h generalizing i with
  | nil => rfl
  | cons hr _ ih =>
    simp only [cuRecordsCheck, cuRecordCheck_congrN2 _ _ hr i, ih]

/-- C8: the fields req_n2i and res_n2rj are never validated: the
verdict of the targeting validator is unchanged when they are replaced
by arbitrary values (records pairwise equal in every other field, and
the headers equal); in particular a passing document stays passing for
every possible value of n2i and n2rj. -/
theorem C8_n2_fields_unvalidated :
    ∀ d d' : CuDoc, d.nip = d'.nip → d.spacecraft = d'.spacecraft →
    d.seans = d'.seans → d.begin = d'.begin → d.end_ = d'.end_ →
    d.ns = d'.ns → d.ng1 = d'.ng1 →
    List.Forall₂ recAgreeExceptN2 d.records d'.records →
    cuValid d = cuValid d' := by
  intro d d' h1 h2 h3 h4 h5 h6 h7 hrec
  have hlen : d.records.length = d'.records.length := hrec.length_eq
  have hemp : cuEmpty d = cuEmpty d' := by
    simp only [cuEmpty, h1, h2, h3, h4, h5, h6, h7, hlen]
  simp only [cuValid, hemp, h1, h2, h3, h4, h5, h6, h7, hlen,
    cuRecordsCheck_congrN2 _ _ hrec 0]

/-- Witness for C8 at a concrete pair of documents: changing the single
record's req_n2i from 0 to 123456789 and res_n2rj from 0 to -987654321
leaves the validator verdict unchanged (and passing). -/
theorem C8_n2_fields_unvalidated_witness :
    List.Forall₂ recAgreeExceptN2
        [goodRec] [{ goodRec with req_n2i := 123456789, res_n2rj := -987654321 }]
    ∧ cuValid ⟨some 1, some 720, some 1, some dt0, some dt0, some 1, some 1, [goodRec]⟩
        = cuValid ⟨some 1, some 720, some 1, some dt0, some dt0, some 1, some 1,
            [{ goodRec with req_n2i := 123456789, res_n2rj := -987654321 }]⟩
    ∧ cuValid ⟨some 1, some 720, some 1, some dt0, some dt0, some 1, some 1, [goodRec]⟩
        = (true, none) :=
  ⟨List.Forall₂.cons (by constructor <;> simp [goodRec]) List.Forall₂.nil,
   C8_n2_fields_unvalidated _ _ rfl rfl rfl rfl rfl rfl rfl
     (List.Forall₂.cons (by constructor <;> simp [goodRec]) List.Forall₂.nil),
   by decide⟩

/-- A concrete 136-byte measurement record buffer: a valid timestamp,
zero head fields, flag byte 0b00000011 at offset 90 (= 136-46), and a
tail whose first float64 (the temperature position, bytes 112-119)
encodes 25.0, with pressure and humidity zero. -/
def c1input : Bytes :=
  ts16 ++ List.replicate 74 0 ++ [3] ++ List.replicate 21 0
    ++ [0, 0, 0, 0, 0, 0, 57, 64] ++ List.replicate 16 0

/-- C1: the claim says the decoded record's range_valid (ddst) flag is
bit 0 and velocity_valid (dvel) is bit 1 of the byte at offset
length-46, and that temperature, pressure, humidity are the three
trailing float64 values.  The decoder's constructor call
Record(t, *data, tmp, ddst, dvel, prs, hmd) fills the dataclass fields
(..., ddst, dvel, tmp, prs, hmd) positionally, so on this buffer with
flag byte 3 and temperature 25.0 the code stores 25.0 in the ddst
field, bit 0 (= 1) in dvel, and bit 1 (= 1) in the tmp field, instead
of ddst = 1, dvel = 1, tmp = 25.0 as the claim requires. -/
theorem C1_flag_and_tail_scrambled :
    itnpRecord c1input
      = .ok ⟨dt0, 0, 0, 0, 0, 0, 0, 0, 0, F64.fin 0, 0,
             F64.fin 25, 1, 1, F64.fin 0, F64.fin 0⟩ := by
  simp only [itnpRecord, itnpRecordLen]
  norm_num [c1input, ts16, systemtime, int16LE, int64LE, toSigned, leNat,
    mkDatetime, daysInMonth, isLeapYear, decodeF64, dt0, List.replicate]
  decide

/-- Modelled from the spec: the total record size implied by the C3
claim's packing, a 16-byte timestamp plus fields packed as 6 float64 +
4 int64 + 6 float64 + 2 int64 of 8 bytes each. -/
def cuSpecPackedSize : Nat := 16 + 8 * 6 + 8 * 4 + 8 * 6 + 8 * 2

/-- C3 counterexample: the claimed packing (16-byte timestamp followed
by 6 float64 + 4 int64 + 6 float64 + 2 int64) occupies 160 bytes, so
it cannot be the layout of a record that occupies exactly 144 bytes,
the length the decoder asserts. -/
theorem C3_claimed_packing_impossible :
    cuSpecPackedSize = 160 ∧ cuRecordLen = 144
      ∧ cuSpecPackedSize ≠ cuRecordLen := by
  decide

/-- C3 as amended: every targeting record occupies exactly 144 bytes
(any other length is a truncated-record error), and a 144-byte buffer
whose leading 16 bytes decode as a timestamp decodes with the
remaining fields packed as 6 float64 + 4 int64 + 4 float64 + 2 int64,
8 bytes each, in the order az, el, req_span, req_dis, req_vel,
req_acc, req_nd1i, req_nd2i, req_n2i, req_n3i, res_del, res_dis,
res_vel, res_acc, res_n2rj, res_n3rj at offsets 16, 24, ..., 136. -/
theorem C3_record_layout :
    (∀ b : Bytes, b.length ≠ 144 → cuRecord b = .error .truncatedRecord)
    ∧ ∀ (b : Bytes) (t : DT), b.length = 144 →
      systemtime (b.take 16) = .ok t →
      cuRecord b = .ok ⟨t,
        decodeF64 ((b.drop 16).take 8), decodeF64 ((b.drop 24).take 8),
        decodeF64 ((b.drop 32).take 8), decodeF64 ((b.drop 40).take 8),
        decodeF64 ((b.drop 48).take 8), decodeF64 ((b.drop 56).take 8),
        int64LE ((b.drop 64).take 8), int64LE ((b.drop 72).take 8),
        int64LE ((b.drop 80).take 8), int64LE ((b.drop 88).take 8),
        decodeF64 ((b.drop 96).take 8), decodeF64 ((b.drop 104).take 8),
        decodeF64 ((b.drop 112).take 8), decodeF64 ((b.drop 120).take 8),
        int64LE ((b.drop 128).take 8), int64LE ((b.drop 136).take 8)⟩ := by
  constructor
  · intro b hb
    simp [cuRecord, cuRecordLen, hb]
  · intro b t hb ht
    simp only [cuRecord, cuRecordLen, hb, if_neg (by omega : ¬(144 ≠ 144)), ht]
    simp [List.drop_drop]

set_option maxRecDepth 8192 in
/-- Witness for C3 at a concrete 144-byte buffer (valid timestamp,
zero payload): the decode succeeds with the fields taken from the
stated offsets. -/
theorem C3_record_layout_witness :
    ((ts16 ++ List.replicate 128 0 : Bytes).length = 144
      ∧ systemtime ((ts16 ++ List.replicate 128 0 : Bytes).take 16) = .ok dt0)
    ∧ cuRecord (ts16 ++ List.replicate 128 0)
      = .ok ⟨dt0,
        decodeF64 (((ts16 ++ List.replicate 128 0 : Bytes).drop 16).take 8),
        decodeF64 (((ts16 ++ List.replicate 128 0 : Bytes).drop 24).take 8),
        decodeF64 (((ts16 ++ List.replicate 128 0 : Bytes).drop 32).take 8),
        decodeF64 (((ts16 ++ List.replicate 128 0 : Bytes).drop 40).take 8),
        decodeF64 (((ts16 ++ List.replicate 128 0 : Bytes).drop 48).take 8),
        decodeF64 (((ts16 ++ List.replicate 128 0 : Bytes).drop 56).take 8),
        int64LE (((ts16 ++ List.replicate 128 0 : Bytes).drop 64).take 8),
        int64LE (((ts16 ++ List.replicate 128 0 : Bytes).drop 72).take 8),
        int64LE (((ts16 ++ List.replicate 128 0 : Bytes).drop 80).take 8),
        int64LE (((ts16 ++ List.replicate 128 0 : Bytes).drop 88).take 8),
        decodeF64 (((ts16 ++ List.replicate 128 0 : Bytes).drop 96).take 8),
        decodeF64 (((ts16 ++ List.replicate 128 0 : Bytes).drop 104).take 8),
        decodeF64 (((ts16 ++ List.replicate 128 0 : Bytes).drop 112).take 8),
        decodeF64 (((ts16 ++ List.replicate 128 0 : Bytes).drop 120).take 8),
        int64LE (((ts16 ++ List.replicate 128 0 : Bytes).drop 128).take 8),
        int64LE (((ts16 ++ List.replicate 128 0 : Bytes).drop 136).take 8)⟩ :=
  ⟨⟨by decide, by decide⟩,
   C3_record_layout.2 (ts16 ++ List.replicate 128 0) dt0 (by decide) (by decide)⟩

/-- If two buffers agree pointwise on the index window
[off, off + n), their n-byte windows at offset off are equal lists. -/
theorem window_eq (b1 b2 : Bytes) (off n : Nat)
    (hagree : ∀ i : Nat, off ≤ i → i < off + n → b1[i]? = b2[i]?) :
    (b1.drop off).take n = (b2.drop off).take n := by
  apply List.ext_getElem?
  intro k
  by_cases hk : k < n
  · rw [List.getElem?_take_of_lt hk, List.getElem?_take_of_lt hk,
      List.getElem?_drop, List.getElem?_drop]
    exact hagree (off + k) (Nat.le_add_right _ _) (by omega)
  · rw [List.getElem?_take_eq_none (by omega), List.getElem?_take_eq_none (by omega)]

/-- C10: the measurement record decoder never reads bytes 91-111: two
136-byte buffers that agree on bytes 0-90 and 112-135 (and may differ
arbitrarily on bytes 91-111) decode to equal records. -/
theorem C10_bytes_91_111_unread (b1 b2 : Bytes)
    (hl1 : b1.length = 136) (hl2 : b2.length = 136)
    (hagree : ∀ i : Nat, i < 136 → i ≤ 90 ∨ 112 ≤ i → b1[i]? = b2[i]?) :
    itnpRecord b1 = itnpRecord b2 := by
  have e16 : b1.take 16 = b2.take 16 := by
    have := window_eq b1 b2 0 16 (fun i h1 h2 => hagree i (by omega) (by omega))
    simpa using this
  have e74 : (b1.drop 16).take 74 = (b2.drop 16).take 74 :=
    window_eq b1 b2 16 74 (fun i h1 h2 => hagree i (by omega) (by omega))
  have e90 : b1.getD 90 0 = b2.getD 90 0 := by
    rw [List.getD_eq_getElem?_getD, List.getD_eq_getElem?_getD,
      hagree 90 (by omega) (by omega)]
  have e24 : b1.drop 112 = b2.drop 112 := by
    have h1 : (b1.drop 112).take 24 = (b2.drop 112).take 24 :=
      window_eq b1 b2 112 24 (fun i h1 h2 => hagree i (by omega) (by omega))
    have l1 : (b1.drop 112).length = 24 := by simp [hl1]
    have l2 : (b2.drop 112).length = 24 := by simp [hl2]
    rw [← List.take_length (b1.drop 112), ← List.take_length (b2.drop 112),
      l1, l2, h1]
  simp only [itnpRecord, hl1, hl2, e16, e74, e90, e24]

set_option maxRecDepth 8192 in
/-- Witness for C10 at concrete buffers: c1input and the same buffer
with every byte of the unread region 91-111 replaced by 255 decode to
the same record. -/
theorem C10_bytes_91_111_unread_witness :
    ((c1input.length = 136
        ∧ (ts16 ++ List.replicate 74 0 ++ [3] ++ List.replicate 21 255
            ++ [0, 0, 0, 0, 0, 0, 57, 64] ++ List.replicate 16 0 : Bytes).length = 136)
      ∧ (∀ i : Nat, i < 136 → i ≤ 90 ∨ 112 ≤ i →
          c1input[i]? = (ts16 ++ List.replicate 74 0 ++ [3] ++ List.replicate 21 255
            ++ [0, 0, 0, 0, 0, 0, 57, 64] ++ List.replicate 16 0 : Bytes)[i]?))
    ∧ itnpRecord c1input
      = itnpRecord (ts16 ++ List.replicate 74 0 ++ [3] ++ List.replicate 21 255
          ++ [0, 0, 0, 0, 0, 0, 57, 64] ++ List.replicate 16 0) :=
  ⟨⟨⟨by decide, by decide⟩, by decide⟩,
   C10_bytes_91_111_unread _ _ (by decide) (by decide) (by decide)⟩

/-- The list of data rows (without newlines) for records from 0-based
index i on. -/
def cuDataLines : Nat → List CuRecord → List String
  | _, [] => []
  | i, r :: rs => cuDataLine i r :: cuDataLines (i + 1) rs

/-- Join lines, terminating each with a newline. -/
def joinLines (ls : List String) : String :=
  ls.foldr (fun l acc => l ++ "\n" ++ acc) ""

theorem cuDataText_eq_joinLines (rs : List CuRecord) :
    ∀ i : Nat, cuDataText i rs = joinLines (cuDataLines i rs) := by
  induction rs with
  | nil => intro i; rfl
  | cons r t ih =>
    intro i
    show cuDataLine i r ++ "\n" ++ cuDataText (i + 1) t
      = joinLines (cuDataLine i r :: cuDataLines (i + 1) t)
    rw [ih (i + 1)]
    rfl

theorem cuDataLines_length (rs : List CuRecord) :
    ∀ i : Nat, (cuDataLines i rs).length = rs.length := by
  induction rs with
  | nil => intro i; rfl
  | cons r t ih => intro i; simp [cuDataLines, ih (i + 1)]

theorem cuDataLines_getElem (rs : List CuRecord) :
    ∀ (i k : Nat) (r : CuRecord), rs[k]? = some r →
      (cuDataLines i rs)[k]? = some (cuDataLine (i + k) r) := by
  induction rs with
  | nil => intro i k r h; simp at h
  | cons a t ih =>
    intro i k r h
    cases k with
    | zero => simp at h; simp [cuDataLines, h]
    | succ k =>
      simp at h
      have := ih (i + 1) k r h
      simp [cuDataLines, this]
      congr 1
      omega

theorem cuWriteStr_eq_joinLines (d : CuDoc) (b e : DT)
    (hb : d.begin = some b) (he : d.end_ = some e) :
    cuWriteStr d
      = some (joinLines (cuHeaderLines d b e ++ [""] ++ [cuColHeader]
          ++ cuDataLines 0 d.records)) := by
  obtain ⟨n1, n2, n3, bb, ee, n4, n5, recs⟩ := d
  change bb = some b at hb
  change ee = some e at he
  subst hb
  subst he
  show some _ = some _
  rw [Option.some_inj]
  simp only [cuHeaderLines, joinLines, List.foldr_append, List.foldr_cons,
    List.foldr_nil]
  rw [cuDataText_eq_joinLines recs 0]
  simp only [joinLines, String.append_assoc, String.empty_append,
    String.append_empty]

/-- C9: for a targeting document with begin and end timestamps set,
the rendered text is the newline-terminated join of: the 7 header
label-value lines, one blank line, the fixed column-header line, and
one data line per record (exactly records.length of them); the k-th
data line begins with the 1-based index k+1; the Begin and End header
lines and the data-line timestamps use the fixed calendar format
'%Y-%m-%d %H:%M:%S' (strfTime), e.g. '2022-09-03 21:00:34'. -/
theorem C9_render_structure :
    ∀ (d : CuDoc) (b e : DT), d.begin = some b → d.end_ = some e →
    cuWriteStr d
      = some (joinLines (cuHeaderLines d b e ++ [""] ++ [cuColHeader]
          ++ cuDataLines 0 d.records))
    ∧ (cuHeaderLines d b e).length = 7
    ∧ (cuDataLines 0 d.records).length = d.records.length
    ∧ (∀ (k : Nat) (r : CuRecord), d.records[k]? = some r →
        (cuDataLines 0 d.records)[k]? = some (cuDataLine k r)
        ∧ ∃ rest : String, cuDataLine k r = toString (k + 1) ++ rest)
    ∧ (cuHeaderLines d b e)[3]? = some ("Begin " ++ strfTime b)
    ∧ (cuHeaderLines d b e)[4]? = some ("End   " ++ strfTime e)
    ∧ (∀ r : CuRecord, ∃ rest : String,
        cuDataLineTail r = strfTime r.time ++ rest)
    ∧ strfTime ⟨2022, 9, 3, 21, 0, 34, 0⟩ = "2022-09-03 21:00:34" := by
  intro d b e hb he
  refine ⟨cuWriteStr_eq_joinLines d b e hb he, rfl,
    cuDataLines_length d.records 0, ?_, rfl, rfl, ?_, ?_⟩
  · intro k r hk
    refine ⟨by simpa using cuDataLines_getElem d.records 0 k r hk, ?_⟩
    refine ⟨String.mk (List.replicate (5 - (toString (k + 1)).length) ' ')
      ++ (" " ++ cuDataLineTail r), ?_⟩
    simp [cuDataLine, padRight, String.append_assoc]
  · intro r
    refine ⟨" " ++ f64Fmt r.az 7 3 ++ " " ++ f64Fmt r.el 6 3 ++ " "
      ++ f64Fmt r.req_span 5 3 ++ " " ++ f64Fmt r.req_dis 17 6 ++ " "
      ++ f64Fmt r.req_vel 11 6 ++ " " ++ f64Fmt r.req_acc 8 6 ++ " "
      ++ intFmt r.req_nd1i 6 ++ " " ++ intFmt r.req_nd2i 6 ++ " "
      ++ intFmt r.req_n2i 7 ++ " " ++ intFmt r.req_n3i 7 ++ " "
      ++ f64Fmt r.res_del 5 3 ++ " " ++ f64Fmt r.res_dis 17 6 ++ " "
      ++ f64Fmt r.res_vel 11 6 ++ " " ++ f64Fmt r.res_acc 8 6 ++ " "
      ++ intFmt r.res_n2rj 7 ++ " " ++ intFmt r.res_n3rj 7, ?_⟩
    simp [cuDataLineTail, String.append_assoc]
  · decide

/-- Witness for C9 at a concrete document with all header fields set
and one record: the data-line count equals the record count and the
calendar format renders as stated. -/
theorem C9_render_structure_witness :
    ((⟨some 1, some 720, some 1, some dt0, some dt0, some 1, some 1,
        [goodRec]⟩ : CuDoc).begin = some dt0
      ∧ (⟨some 1, some 720, some 1, some dt0, some dt0, some 1, some 1,
        [goodRec]⟩ : CuDoc).end_ = some dt0)
    ∧ (cuDataLines 0 (⟨some 1, some 720, some 1, some dt0, some dt0, some 1,
        some 1, [goodRec]⟩ : CuDoc).records).length
        = (⟨some 1, some 720, some 1, some dt0, some dt0, some 1, some 1,
        [goodRec]⟩ : CuDoc).records.length
    ∧ strfTime ⟨2022, 9, 3, 21, 0, 34, 0⟩ = "2022-09-03 21:00:34" :=
  ⟨⟨rfl, rfl⟩,
   (C9_render_structure ⟨some 1, some 720, some 1, some dt0, some dt0,
     some 1, some 1, [goodRec]⟩ dt0 dt0 rfl rfl).2.2.1,
   (C9_render_structure ⟨some 1, some 720, some 1, some dt0, some dt0,
     some 1, some 1, [goodRec]⟩ dt0 dt0 rfl rfl).2.2.2.2.2.2.2⟩

/-- True iff an Except value is a success. -/
def exceptOk {α : Type} : Except Err α → Bool
  | .ok _ => true
  | .error _ => false

/-- Every complete leading 144-byte chunk of the buffer decodes
successfully as a targeting record (a trailing partial chunk is not
constrained). -/
def cuChunksOk (s : Bytes) : Bool :=
  if h : s.length < 144 then true
  else exceptOk (cuRecord (s.take 144)) && cuChunksOk (s.drop 144)
termination_by s.length
decreasing_by simp only [List.length_drop]; omega

theorem exceptOk_true {α : Type} {x : Except Err α} (h : exceptOk x = true) :
    ∃ a, x = .ok a := by
  cases x with
  | ok a => exact ⟨a, rfl⟩
  | error e => simp [exceptOk] at h

theorem unpackQ_append (x b : Bytes) (hx : 8 ≤ x.length) :
    unpackQ (x ++ b) = .ok (int64LE (x.take 8), x.drop 8 ++ b) := by
  unfold unpackQ
  rw [if_pos (by simp only [List.length_append]; omega)]
  rw [List.take_append_of_le_length hx, List.drop_append_of_le_length hx]

theorem readTimestamp_append_ok (x b : Bytes) (t : DT) (hx : 16 ≤ x.length)
    (ht : systemtime (x.take 16) = .ok t) :
    readTimestamp (x ++ b) = .ok (t, x.drop 16 ++ b) := by
  unfold readTimestamp
  rw [List.take_append_of_le_length hx, ht,
    List.drop_append_of_le_length hx]

/-- Parsing the fixed 96-byte targeting header off the front of the
input: when the two timestamp windows decode, the header phase
succeeds, populates every header field from the stated offsets, and
leaves exactly the trailing bytes. -/
theorem cuReadHeader_split (h body : Bytes) (t1 t2 : DT) (hh : h.length = 96)
    (ht1 : systemtime ((h.drop 32).take 16) = .ok t1)
    (ht2 : systemtime ((h.drop 48).take 16) = .ok t2) :
    cuReadHeader (h ++ body) =
      (⟨some (int64LE (h.take 8)), some (int64LE ((h.drop 8).take 8)),
        some (int64LE ((h.drop 16).take 8)), some t1, some t2,
        some (int64LE ((h.drop 64).take 8)),
        some (int64LE ((h.drop 72).take 8)), []⟩, body, none) := by
  have l2 : (8:Nat) ≤ (h.drop 8).length := by simp [hh]
  have l3 : (8:Nat) ≤ (h.drop 16).length := by simp [hh]
  have l4 : (8:Nat) ≤ (h.drop 24).length := by simp [hh]
  have l5 : (16:Nat) ≤ (h.drop 32).length := by simp [hh]
  have l6 : (16:Nat) ≤ (h.drop 48).length := by simp [hh]
  have l7 : (8:Nat) ≤ (h.drop 64).length := by simp [hh]
  have l8 : (8:Nat) ≤ (h.drop 72).length := by simp [hh]
  have l9 : (16:Nat) ≤ (h.drop 80).length := by simp [hh]
  have hnil : h.drop 96 = [] := List.drop_eq_nil_of_le (by omega)
  simp only [cuReadHeader,
    unpackQ_append h body (by omega),
    unpackQ_append (h.drop 8) body l2,
    unpackQ_append (h.drop 16) body l3,
    readTimestamp_append_ok (h.drop 32) body t1 l5 ht1,
    readTimestamp_append_ok (h.drop 48) body t2 l6 ht2,
    unpackQ_append (h.drop 64) body l7,
    unpackQ_append (h.drop 72) body l8,
    List.drop_append_of_le_length l4, List.drop_append_of_le_length l9,
    List.drop_drop, hnil, List.nil_append, initCuDoc]

/-- The record loop on a buffer of exactly N whole chunks, all of which
decode: it succeeds with the N records in input order. -/
theorem cuRecordsLoop_ok :
    ∀ (N : Nat) (s : Bytes), s.length = 144 * N → cuChunksOk s = true →
    ∃ rs : List CuRecord, cuRecordsLoop s = .ok rs ∧ rs.length = N
      ∧ ∀ i : Nat, i < N →
          rs[i]? = (cuRecord ((s.drop (144 * i)).take 144)).toOption := by
  intro N
  induction N with
  | zero =>
    intro s hlen _
    have : s = [] := List.length_eq_zero.mp (by omega)
    subst this
    exact ⟨[], by simp [cuRecordsLoop], rfl, fun i hi => by omega⟩
  | succ N ih =>
    intro s hlen hok
    have hge : 144 ≤ s.length := by omega
    have hne : ¬s.isEmpty := by
      cases s
      · simp at hlen
      · simp
    rw [cuChunksOk] at hok
    rw [dif_neg (by omega)] at hok
    simp only [Bool.and_eq_true] at hok
    obtain ⟨r, hr⟩ := exceptOk_true hok.1
    obtain ⟨rs, hloop, hrslen, hidx⟩ := ih (s.drop 144)
      (by simp only [List.length_drop]; omega) hok.2
    refine ⟨r :: rs, ?_, by simp [hrslen], ?_⟩
    · rw [cuRecordsLoop]
      rw [dif_neg hne, hr, hloop]
    · intro i hi
      cases i with
      | zero =>
        simp only [List.getElem?_cons_zero, Nat.mul_zero, List.drop_zero, hr]
        rfl
      | succ i =>
        have := hidx i (by omega)
        rw [List.drop_drop] at this
        have harith : 144 + 144 * i = 144 * (i + 1) := by ring
        rw [harith] at this
        simpa using this

/-- The record loop on a buffer whose length is not a multiple of 144,
all complete chunks decoding: the trailing partial chunk fails the
144-byte assertion, a truncated-record error. -/
theorem cuRecordsLoop_trunc :
    ∀ (N : Nat) (s : Bytes), s.length / 144 = N → s.length % 144 ≠ 0 →
    cuChunksOk s = true → cuRecordsLoop s = .error .truncatedRecord := by
  intro N
  induction N with
  | zero =>
    intro s hdiv hmod _
    have hlt : s.length < 144 := by omega
    have hne : ¬s.isEmpty := by
      cases s
      · simp at hmod
      · simp
    have hrec : cuRecord (s.take 144) = .error .truncatedRecord := by
      unfold cuRecord
      rw [if_pos]
      simp only [List.length_take, cuRecordLen]
      omega
    rw [cuRecordsLoop]
    rw [dif_neg hne, hrec]
  | succ N ih =>
    intro s hdiv hmod hok
    have hge : 144 ≤ s.length := by omega
    have hne : ¬s.isEmpty := by
      cases s
      · simp at hge
      · simp
    rw [cuChunksOk] at hok
    rw [dif_neg (by omega)] at hok
    simp only [Bool.and_eq_true] at hok
    obtain ⟨r, hr⟩ := exceptOk_true hok.1
    have htail := ih (s.drop 144) (by simp; omega) (by simp; omega) hok.2
    rw [cuRecordsLoop]
    rw [dif_neg hne, hr, htail]

/-- C4 counterexample: a complete 96-byte header (all bytes zero)
followed by a trailing region of exactly 0 * 144 bytes does not decode
successfully as the claim requires: the begin-timestamp field holds
year 0 and month 0, datetime raises ValueError, and the whole decode
fails, so success cannot depend only on the trailing length. -/
theorem C4_counterexample :
    (List.replicate 96 0 : Bytes).length = 96
    ∧ ((List.replicate 96 0 : Bytes).drop 96).length = 144 * 0
    ∧ cuRead (List.replicate 96 0) = (initCuDoc, some .invalidDate) := by
  refine ⟨by decide, by decide, ?_⟩
  decide

/-- C4 as amended: for an input of a complete 96-byte targeting header
followed by trailing bytes, provided the header's two timestamp
windows decode to valid calendar date-times and every complete
144-byte trailing chunk decodes as a record: if the trailing length is
exactly N*144 the decode succeeds and the document holds exactly the N
chunk records in input order; if the trailing length is not a multiple
of 144 the decode fails with the truncated-record error. -/
theorem C4_record_chunking :
    ∀ (h body : Bytes) (t1 t2 : DT), h.length = 96 →
    systemtime ((h.drop 32).take 16) = .ok t1 →
    systemtime ((h.drop 48).take 16) = .ok t2 →
    (∀ N : Nat, body.length = 144 * N → cuChunksOk body = true →
      (cuRead (h ++ body)).2 = none
      ∧ (cuRead (h ++ body)).1.records.length = N
      ∧ (∀ i : Nat, i < N → ((cuRead (h ++ body)).1.records)[i]?
          = (cuRecord ((body.drop (144 * i)).take 144)).toOption))
    ∧ (body.length % 144 ≠ 0 → cuChunksOk body = true →
        cuRead (h ++ body) = (initCuDoc, some .truncatedRecord)) := by
  intro h body t1 t2 hh ht1 ht2
  have hsplit := cuReadHeader_split h body t1 t2 hh ht1 ht2
  constructor
  · intro N hlen hok
    obtain ⟨rs, hloop, hrslen, hidx⟩ := cuRecordsLoop_ok N body hlen hok
    have hread : cuRead (h ++ body)
        = (⟨some (int64LE (h.take 8)), some (int64LE ((h.drop 8).take 8)),
            some (int64LE ((h.drop 16).take 8)), some t1, some t2,
            some (int64LE ((h.drop 64).take 8)),
            some (int64LE ((h.drop 72).take 8)), rs⟩, none) := by
      simp only [cuRead, cuReadAttempt, hsplit, hloop]
    rw [hread]
    exact ⟨rfl, hrslen, hidx⟩
  · intro hmod hok
    have hloop := cuRecordsLoop_trunc (body.length / 144) body rfl hmod hok
    simp only [cuRead, cuReadAttempt, hsplit, hloop]

/-- A concrete valid 96-byte targeting header: nip 1, spacecraft 0,
session 0, both session timestamps 2022-01-01 00:00:00, ns and ng1
zero. -/
def h96 : Bytes :=
  [1, 0, 0, 0, 0, 0, 0, 0] ++ List.replicate 24 0 ++ ts16 ++ ts16
    ++ List.replicate 32 0

/-- Witness for C4 at concrete inputs: with the valid header h96, a
trailing region of 0 bytes (= 0 records) decodes successfully with
zero records, and a trailing region of 1 byte fails with the
truncated-record error. -/
theorem C4_record_chunking_witness :
    (h96.length = 96
      ∧ systemtime ((h96.drop 32).take 16) = .ok dt0
      ∧ systemtime ((h96.drop 48).take 16) = .ok dt0
      ∧ ([] : Bytes).length = 144 * 0 ∧ cuChunksOk [] = true
      ∧ ([0] : Bytes).length % 144 ≠ 0 ∧ cuChunksOk [0] = true)
    ∧ ((cuRead (h96 ++ [])).2 = none
        ∧ (cuRead (h96 ++ [])).1.records.length = 0)
    ∧ cuRead (h96 ++ [0]) = (initCuDoc, some .truncatedRecord) :=
  ⟨⟨by decide, by decide, by decide, by decide, by rw [cuChunksOk]; rfl,
    by decide, by rw [cuChunksOk]; rfl⟩,
   ⟨((C4_record_chunking h96 [] dt0 dt0 (by decide) (by decide) (by decide)).1
       0 (by decide) (by rw [cuChunksOk]; rfl)).1,
    ((C4_record_chunking h96 [] dt0 dt0 (by decide) (by decide) (by decide)).1
       0 (by decide) (by rw [cuChunksOk]; rfl)).2.1⟩,
   (C4_record_chunking h96 [0] dt0 dt0 (by decide) (by decide) (by decide)).2
     (by decide) (by rw [cuChunksOk]; rfl)⟩

end SrgReader
